import Mathlib

/-!
Verification of the dirty-tracked scene-graph transform cache of the RMGE
rendering engine (src/tracker.rs, src/scene.rs, src/geometry.rs).

Modelling decisions:
* `Mat4` (nalgebra `Matrix4<f32>`) is modelled as a 4×4 matrix of integers;
  the properties under study involve only matrix products and the identity,
  never division or rounding, so an exact ring is a faithful stand-in for
  the scalar type.
* `Tracked<T>` is the two-constructor enum from tracker.rs.  Rust's
  `DerefMut` impl mutates the wrapper in place; here `Tracked.deref_mut`
  returns the wrapper after that state transition, and a write through the
  mutable reference is modelled by building a `Modified` wrapper holding
  the written value.
* `SceneNode` owns `Vec<Tracked<SceneNode>>`.  Lean's nested-inductive
  recursion does not evaluate well, so the specialisations
  `TrackedNode` (= `Tracked<SceneNode>`) and `NodeList`
  (= `Vec<Tracked<SceneNode>>`) are declared mutually with `SceneNode`;
  `TrackedNode` mirrors `Tracked` constructor for constructor.
* Stateful Rust functions become state-passing Lean functions returning the
  updated structure.
-/

/-- 4×4 matrix, entries indexed row then column (models `Mat4 = Matrix4<f32>`
from geometry.rs with exact scalars). -/
abbrev Mat4 : Type := Fin 4 → Fin 4 → ℤ

/-- Row-by-column matrix product; models nalgebra's
`self.mul_to(rhs, out)`, i.e. `out = self * rhs`. -/
def matMul (a b : Mat4) : Mat4 := fun i j =>
  a i 0 * b 0 j + a i 1 * b 1 j + a i 2 * b 2 j + a i 3 * b 3 j

/-- The identity matrix (`Mat4::identity()`). -/
def Mat4.identity : Mat4 := fun i j => if i = j then 1 else 0

/-- Scalar multiple of the identity, used for concrete test matrices such as
`2.0 * Mat4::identity()` in the repository's scene example. -/
def scalarMat (q : ℤ) : Mat4 := fun i j => if i = j then q else 0

/-- A 3-vector (`Vec3 = Vector3<f32>` from geometry.rs). -/
abbrev Vec3 : Type := Fin 3 → ℤ

/-- A drawable quad: four 3-d points (`Quad` from geometry.rs). -/
structure Quad : Type where
  points : Fin 4 → Vec3
deriving DecidableEq

/-- `Tracked<T>` from tracker.rs: wraps one value and records whether it has
been modified since the last checkpoint. -/
inductive Tracked (α : Type) : Type where
  | Unmodified (x : α) : Tracked α
  | Modified (x : α) : Tracked α

/-- `Tracked::new`: construct a new Tracked set to unmodified. -/
def Tracked.new {α : Type} (x : α) : Tracked α := Tracked.Unmodified x

/-- `Tracked::is_unmodified`. -/
def Tracked.is_unmodified {α : Type} : Tracked α → Bool
  | .Unmodified _ => true
  | .Modified _ => false

/-- `Tracked::is_modified`. -/
def Tracked.is_modified {α : Type} : Tracked α → Bool
  | .Unmodified _ => false
  | .Modified _ => true

/-- `Tracked::reset`: returns `(did_something, updated wrapper)`; a Modified
wrapper becomes Unmodified and reports `true`, anything else is unchanged. -/
def Tracked.reset {α : Type} : Tracked α → Bool × Tracked α
  | .Modified x => (true, .Unmodified x)
  | .Unmodified x => (false, .Unmodified x)

/-- `Tracked::into_inner`: the wrapped value, regardless of state. -/
def Tracked.into_inner {α : Type} : Tracked α → α
  | .Modified x => x
  | .Unmodified x => x

/-- `Deref::deref` for `Tracked`: read access to the inner value. -/
def Tracked.deref {α : Type} : Tracked α → α
  | .Unmodified x => x
  | .Modified x => x

/-- The state transition performed by `DerefMut::deref_mut` for `Tracked`:
an Unmodified wrapper becomes Modified before mutable access is granted. -/
def Tracked.deref_mut {α : Type} : Tracked α → Tracked α
  | .Unmodified x => .Modified x
  | .Modified x => .Modified x

/-- A write `*t = x` through the mutable reference handed out by
`deref_mut`: the wrapper was already forced to Modified, and now holds `x`. -/
def Tracked.write {α : Type} (_t : Tracked α) (x : α) : Tracked α :=
  Tracked.Modified x

mutual
/-- `SceneNode` from scene.rs: depth-first index, cached world transform,
local transform, the two count-changed flags, children and quads. -/
inductive SceneNode : Type where
  | mk (df_index : Tracked Nat) (cache : Tracked Mat4) (transform : Tracked Mat4)
       (child_count_changed : Bool) (quad_count_changed : Bool)
       (children : NodeList) (quads : List (Tracked Quad)) : SceneNode

/-- `Tracked<SceneNode>`, declared mutually with `SceneNode` (see the header
note); constructors mirror `Tracked` exactly. -/
inductive TrackedNode : Type where
  | Unmodified (n : SceneNode) : TrackedNode
  | Modified (n : SceneNode) : TrackedNode

/-- `Vec<Tracked<SceneNode>>`, declared mutually with `SceneNode`. -/
inductive NodeList : Type where
  | nil : NodeList
  | cons (hd : TrackedNode) (tl : NodeList) : NodeList
end

/-- Field accessor for `df_index`. -/
def SceneNode.df_index : SceneNode → Tracked Nat
  | .mk d _ _ _ _ _ _ => d

/-- Field accessor for `cache`. -/
def SceneNode.cache : SceneNode → Tracked Mat4
  | .mk _ ca _ _ _ _ _ => ca

/-- Field accessor for `transform`. -/
def SceneNode.transform : SceneNode → Tracked Mat4
  | .mk _ _ tr _ _ _ _ => tr

/-- Field accessor for `child_count_changed`. -/
def SceneNode.child_count_changed : SceneNode → Bool
  | .mk _ _ _ b _ _ _ => b

/-- Field accessor for `quad_count_changed`. -/
def SceneNode.quad_count_changed : SceneNode → Bool
  | .mk _ _ _ _ b _ _ => b

/-- Field accessor for `children` (`SceneNode::get_children`). -/
def SceneNode.children : SceneNode → NodeList
  | .mk _ _ _ _ _ ch _ => ch

/-- Field accessor for `quads` (`SceneNode::get_quads`). -/
def SceneNode.quads : SceneNode → List (Tracked Quad)
  | .mk _ _ _ _ _ _ q => q

/-- `Tracked::new` at `SceneNode` (mirrors `Tracked.new`). -/
def TrackedNode.new (n : SceneNode) : TrackedNode := TrackedNode.Unmodified n

/-- `Tracked::is_unmodified` at `SceneNode`. -/
def TrackedNode.is_unmodified : TrackedNode → Bool
  | .Unmodified _ => true
  | .Modified _ => false

/-- `Tracked::is_modified` at `SceneNode`. -/
def TrackedNode.is_modified : TrackedNode → Bool
  | .Unmodified _ => false
  | .Modified _ => true

/-- `Tracked::reset` at `SceneNode`. -/
def TrackedNode.reset : TrackedNode → Bool × TrackedNode
  | .Modified n => (true, .Unmodified n)
  | .Unmodified n => (false, .Unmodified n)

/-- `Deref::deref` at `SceneNode`. -/
def TrackedNode.deref : TrackedNode → SceneNode
  | .Unmodified n => n
  | .Modified n => n

/-- The `DerefMut` state transition at `SceneNode`. -/
def TrackedNode.deref_mut : TrackedNode → TrackedNode
  | .Unmodified n => .Modified n
  | .Modified n => .Modified n

/-- `Vec::len` for the child vector. -/
def NodeList.length : NodeList → Nat
  | .nil => 0
  | .cons _ tl => tl.length + 1

/-- `Vec::push` builds the child vector by appending at the end. -/
def NodeList.append : NodeList → NodeList → NodeList
  | .nil, l => l
  | .cons hd tl, l => .cons hd (tl.append l)

/-- The last element of the child vector, if any. -/
def NodeList.getLast? : NodeList → Option TrackedNode
  | .nil => none
  | .cons hd .nil => some hd
  | .cons _ (.cons hd tl) => NodeList.getLast? (.cons hd tl)

/-- Indexing into the child vector. -/
def NodeList.get? : NodeList → Nat → Option TrackedNode
  | .nil, _ => none
  | .cons hd _, 0 => some hd
  | .cons _ tl, n + 1 => tl.get? n

/-- `SceneNode::new(trans)`: df_index 0, cache and transform both set to the
given local transform, all wrappers Unmodified, no children, no quads. -/
def SceneNode.new (trans : Mat4) : SceneNode :=
  SceneNode.mk (Tracked.new 0) (Tracked.new trans) (Tracked.new trans)
    false false NodeList.nil []

mutual
/-- One iteration step of the loop in `assign_df_indices` (scene.rs): the
node at sibling offset `c` receives index `parent_index + c` and its own
children are reassigned with that index as the new base.  `parent_index`
and `c` are the loop state of `nodes.iter_mut().enumerate()`. -/
def assignList (parent_index c : Nat) : NodeList → NodeList
  | .nil => .nil
  | .cons t l =>
      NodeList.cons (assignNode (parent_index + c) t) (assignList parent_index (c + 1) l)
termination_by structural l => l

/-- The loop body `*((*node).df_index) = cur_idx; assign_df_indices(cur_idx,
node.get_children_mut())`: dereferencing the node wrapper mutably marks it
Modified, then its index and children are updated. -/
def assignNode (cur_idx : Nat) : TrackedNode → TrackedNode
  | .Unmodified n => TrackedNode.Modified (assignBody cur_idx n)
  | .Modified n => TrackedNode.Modified (assignBody cur_idx n)
termination_by structural t => t

/-- Writing the new index through the `df_index` wrapper (marking it
Modified) and recursing into the children. -/
def assignBody (cur_idx : Nat) : SceneNode → SceneNode
  | .mk _ ca tr b1 b2 ch q =>
      SceneNode.mk (Tracked.Modified cur_idx) ca tr b1 b2 (assignList cur_idx 0 ch) q
termination_by structural n => n
end

/-- `assign_df_indices(parent_index, nodes)` from scene.rs. -/
def assign_df_indices (parent_index : Nat) (nodes : NodeList) : NodeList :=
  assignList parent_index 0 nodes

/-- `SceneNode::add_child(node)`: sets `child_count_changed`, replaces the
child's `df_index` wrapper by `Tracked::new(self.children.len())`, reassigns
the child's descendants' indices with that value as base, and pushes the
child wrapped by `Tracked::new` at the end of `children`. -/
def SceneNode.add_child (self node : SceneNode) : SceneNode :=
  match self, node with
  | .mk d ca tr _ qcc ch q, .mk _ nca ntr nb1 nb2 nch nq =>
      let len := ch.length
      let node2 : SceneNode :=
        SceneNode.mk (Tracked.new len) nca ntr nb1 nb2 (assign_df_indices len nch) nq
      SceneNode.mk d ca tr true qcc
        (ch.append (NodeList.cons (TrackedNode.new node2) NodeList.nil)) q

mutual
/-- The recursive part of `compute_cache` (scene.rs) in its
parent-Unmodified branch: each child is skipped unless its node wrapper is
Modified; a Modified child is recomputed against this node's (unchanged)
cache wrapper. -/
def walkUnmod (cache : Tracked Mat4) : NodeList → NodeList
  | .nil => .nil
  | .cons (.Unmodified n) cs =>
      NodeList.cons (TrackedNode.Unmodified n) (walkUnmod cache cs)
  | .cons (.Modified n) cs =>
      NodeList.cons (computeCacheNode cache (TrackedNode.Modified n)) (walkUnmod cache cs)
termination_by structural l => l

/-- The recursive part of `compute_cache` in its parent-Modified branch:
every child is recomputed unconditionally against the freshly written cache
wrapper. -/
def walkMod (cache : Tracked Mat4) : NodeList → NodeList
  | .nil => .nil
  | .cons c cs => NodeList.cons (computeCacheNode cache c) (walkMod cache cs)
termination_by structural l => l

/-- Entering a child in `compute_cache`: the destructuring of `&mut **child`
dereferences the child wrapper mutably, marking it Modified, then runs the
body on the child's fields. -/
def computeCacheNode (parentCache : Tracked Mat4) : TrackedNode → TrackedNode
  | .Unmodified n => TrackedNode.Modified (computeBody parentCache n)
  | .Modified n => TrackedNode.Modified (computeBody parentCache n)
termination_by structural t => t

/-- The body of `compute_cache(parent, mat, cache, children)` applied to a
node's own fields: if `parent` is Unmodified only Modified children are
revisited; otherwise `parent.mul_to(mat, &mut **cache)` writes
`parent * mat` through the cache wrapper (marking it Modified) and every
child is revisited against the new cache. -/
def computeBody (parentCache : Tracked Mat4) : SceneNode → SceneNode
  | .mk d ca tr b1 b2 ch q =>
      if parentCache.is_unmodified then
        SceneNode.mk d ca tr b1 b2 (walkUnmod ca ch) q
      else
        let c2 : Tracked Mat4 := Tracked.Modified (matMul parentCache.deref tr.deref)
        SceneNode.mk d c2 tr b1 b2 (walkMod c2 ch) q
termination_by structural n => n
end

/-- `compute_cache(parent, mat, cache, children)` from scene.rs, returning
the updated `cache` wrapper and the updated children. -/
def compute_cache (parent mat cache : Tracked Mat4) (children : NodeList) :
    Tracked Mat4 × NodeList :=
  if parent.is_unmodified then
    (cache, walkUnmod cache children)
  else
    let c2 : Tracked Mat4 := Tracked.Modified (matMul parent.deref mat.deref)
    (c2, walkMod c2 children)

/-- `SceneTree` from scene.rs: owns the root node wrapper. -/
structure SceneTree : Type where
  root : TrackedNode

/-- `SceneTree::new(node)`: resets the node's `df_index` to
`Tracked::new(0)` and wraps the node with `Tracked::new`. -/
def SceneTree.new (node : SceneNode) : SceneTree :=
  match node with
  | .mk _ ca tr b1 b2 ch q =>
      ⟨TrackedNode.new (SceneNode.mk (Tracked.new 0) ca tr b1 b2 ch q)⟩

/-- `SceneTree::recompute_caches()`: if the root wrapper is Modified, the
destructuring of `&mut *self.root` marks it Modified (it already is) and
`compute_cache` runs with an implicit Modified identity parent; otherwise
nothing happens. -/
def SceneTree.recompute_caches (t : SceneTree) : SceneTree :=
  if t.root.is_modified then
    match t.root.deref with
    | .mk d ca tr b1 b2 ch q =>
        let r := compute_cache (Tracked.Modified Mat4.identity) tr ca ch
        ⟨TrackedNode.Modified (SceneNode.mk d r.1 tr b1 b2 r.2 q)⟩
  else t

mutual
/-- `unset_modification(node)` from scene.rs: `node.get_children_mut()`
dereferences the node wrapper mutably (marking it Modified), every child is
reset recursively, and finally `node.reset()` leaves the wrapper
Unmodified.  Only node wrappers are touched. -/
def unset_modification : TrackedNode → TrackedNode
  | .Unmodified n => TrackedNode.Unmodified (unsetBody n)
  | .Modified n => TrackedNode.Unmodified (unsetBody n)
termination_by structural t => t

/-- Recursing into the children for `unset_modification`. -/
def unsetBody : SceneNode → SceneNode
  | .mk d ca tr b1 b2 ch q => SceneNode.mk d ca tr b1 b2 (unsetList ch) q
termination_by structural n => n

/-- The loop over `node.get_children_mut()` in `unset_modification`. -/
def unsetList : NodeList → NodeList
  | .nil => .nil
  | .cons t l => NodeList.cons (unset_modification t) (unsetList l)
termination_by structural l => l
end

/-- `SceneTree::unset_modifications()`. -/
def SceneTree.unset_modifications (t : SceneTree) : SceneTree :=
  ⟨unset_modification t.root⟩

/-- The state effect of reaching the root node through
`SceneTree::root_mut()` and dereferencing it mutably, as every mutation of
the tree through the public API does: the root wrapper becomes Modified. -/
def SceneTree.touch_root (t : SceneTree) : SceneTree :=
  ⟨t.root.deref_mut⟩

mutual
/-- The world-transform invariant at a wrapped node: given the parent's
resolved world matrix `pw`, the node's cache value must be `pw` times its
local transform, and its children must satisfy the invariant against this
node's cache value. -/
def cacheOkNode (pw : Mat4) : TrackedNode → Bool
  | .Unmodified n => cacheOkBody pw n
  | .Modified n => cacheOkBody pw n
termination_by structural t => t

/-- The world-transform invariant at a bare node. -/
def cacheOkBody (pw : Mat4) : SceneNode → Bool
  | .mk _ ca tr _ _ ch _ =>
      decide (ca.deref = matMul pw tr.deref) && cacheOkList ca.deref ch
termination_by structural n => n

/-- The world-transform invariant for a list of siblings. -/
def cacheOkList (pw : Mat4) : NodeList → Bool
  | .nil => true
  | .cons t l => cacheOkNode pw t && cacheOkList pw l
termination_by structural l => l
end

mutual
/-- Every node wrapper in the subtree (this one included) is Unmodified. -/
def allNodesUnmod : TrackedNode → Bool
  | .Unmodified n => allNodesUnmodBody n
  | .Modified _ => false
termination_by structural t => t

/-- Every node wrapper strictly below this node is Unmodified. -/
def allNodesUnmodBody : SceneNode → Bool
  | .mk _ _ _ _ _ ch _ => allNodesUnmodList ch
termination_by structural n => n

/-- Every node wrapper in a sibling list's subtrees is Unmodified. -/
def allNodesUnmodList : NodeList → Bool
  | .nil => true
  | .cons t l => allNodesUnmod t && allNodesUnmodList l
termination_by structural l => l
end

mutual
/-- Erases every node-wrapper state in the subtree while keeping all other
data: indices, cache wrappers, transform wrappers, flags, quads, and the
children's order.  Two trees agree under `stripNode` exactly when they
differ at most in node-wrapper states. -/
def stripNode : TrackedNode → SceneNode
  | .Unmodified n => stripBody n
  | .Modified n => stripBody n
termination_by structural t => t

/-- `stripNode` under a bare node. -/
def stripBody : SceneNode → SceneNode
  | .mk d ca tr b1 b2 ch q => SceneNode.mk d ca tr b1 b2 (stripList ch) q
termination_by structural n => n

/-- `stripNode` over a sibling list; the stripped nodes are rewrapped in a
fixed Unmodified state so that only the original wrapper states are lost. -/
def stripList : NodeList → NodeList
  | .nil => .nil
  | .cons t l => NodeList.cons (TrackedNode.Unmodified (stripNode t)) (stripList l)
termination_by structural l => l
end

mutual
/-- Erases every node-wrapper state and every cache wrapper (value and
state) in the subtree, keeping indices, transform wrappers, flags, quads
and the children's order.  Two trees agree under `scrubNode` exactly when
they differ at most in node-wrapper states and cache wrappers. -/
def scrubNode : TrackedNode → SceneNode
  | .Unmodified n => scrubBody n
  | .Modified n => scrubBody n
termination_by structural t => t

/-- `scrubNode` under a bare node. -/
def scrubBody : SceneNode → SceneNode
  | .mk d _ tr b1 b2 ch q =>
      SceneNode.mk d (Tracked.new Mat4.identity) tr b1 b2 (scrubChildren ch) q
termination_by structural n => n

/-- `scrubNode` over a sibling list. -/
def scrubChildren : NodeList → NodeList
  | .nil => .nil
  | .cons t l => NodeList.cons (TrackedNode.Unmodified (scrubNode t)) (scrubChildren l)
termination_by structural l => l
end

mutual
/-- The index-assignment contract of `assign_df_indices`: the node at
sibling offset `c` holds index `parent_index + c` and its children satisfy
the contract with that index as the new base. -/
def dfOkList (parent_index c : Nat) : NodeList → Bool
  | .nil => true
  | .cons t l => dfOkNode (parent_index + c) t && dfOkList parent_index (c + 1) l
termination_by structural l => l

/-- The index-assignment contract at one wrapped node. -/
def dfOkNode (cur_idx : Nat) : TrackedNode → Bool
  | .Unmodified n => dfOkBody cur_idx n
  | .Modified n => dfOkBody cur_idx n
termination_by structural t => t

/-- The index-assignment contract at one bare node. -/
def dfOkBody (cur_idx : Nat) : SceneNode → Bool
  | .mk d _ _ _ _ ch _ => decide (d.deref = cur_idx) && dfOkList cur_idx 0 ch
termination_by structural n => n
end

/-- A freshly constructed one-node scene tree, as in the repository's scene
example before any mutation. -/
def freshTree : SceneTree := SceneTree.new (SceneNode.new Mat4.identity)

/-- The second child of the repository's scene example: local transform 3·I
with two grandchildren I and 2·I. -/
def exChild2 : SceneNode :=
  ((SceneNode.new (scalarMat 3)).add_child (SceneNode.new Mat4.identity)).add_child
    (SceneNode.new (scalarMat 2))

/-- The root of the repository's scene example: identity with children 2·I
and `exChild2`. -/
def exRoot : SceneNode :=
  ((SceneNode.new Mat4.identity).add_child (SceneNode.new (scalarMat 2))).add_child exChild2

/-- The example scene tree after the root has been reached through
`root_mut()` (marking the root wrapper Modified), so that a recompute pass
actually runs. -/
def exTree : SceneTree := (SceneTree.new exRoot).touch_root

/-- A tree built exactly as the repository's example does it — children
added first, `SceneTree::new` last — whose child cache (equal to the
child's own local transform, not the composed product) is stale. -/
def staleTree : SceneTree :=
  SceneTree.new ((SceneNode.new (scalarMat 2)).add_child (SceneNode.new (scalarMat 3)))

/-- A tree taken through one full epoch: root touched through `root_mut()`,
caches recomputed, then `unset_modifications()`. -/
def resetTree : SceneTree :=
  (((SceneTree.new (SceneNode.new Mat4.identity)).touch_root).recompute_caches).unset_modifications

/-- A node used repeatedly as a child in the counterexample trees. -/
def sampleChild : SceneNode := SceneNode.new (scalarMat 2)

/-- A root with six children, so that its last child sits at positional
index 5. -/
def rootSix : SceneNode :=
  ((((((SceneNode.new Mat4.identity).add_child sampleChild).add_child
      sampleChild).add_child sampleChild).add_child sampleChild).add_child
      sampleChild).add_child sampleChild

/-- The child of `rootSix` at position 5: a node whose `df_index` is 5, as
produced by the public API. -/
def deepParent : SceneNode :=
  match rootSix.children.get? 5 with
  | some t => t.deref
  | none => SceneNode.new Mat4.identity

theorem matMul_identity_left (a : Mat4) : matMul Mat4.identity a = a := by
  funext i j
  fin_cases i <;> fin_cases j <;>
    simp +decide [matMul, Mat4.identity]

mutual
theorem computeCacheNode_idem (pv : Mat4) (t : TrackedNode) :
    computeCacheNode (Tracked.Modified pv) (computeCacheNode (Tracked.Modified pv) t)
      = computeCacheNode (Tracked.Modified pv) t := by
  match t with
  | .Unmodified n =>
      simp only [computeCacheNode]
      rw [computeBody_idem]
  | .Modified n =>
      simp only [computeCacheNode]
      rw [computeBody_idem]
termination_by structural t

theorem computeBody_idem (pv : Mat4) (n : SceneNode) :
    computeBody (Tracked.Modified pv) (computeBody (Tracked.Modified pv) n)
      = computeBody (Tracked.Modified pv) n := by
  match n with
  | .mk d ca tr b1 b2 ch q =>
      simp only [computeBody, Tracked.is_unmodified, Tracked.deref, if_neg, Bool.false_eq_true,
        not_false_iff]
      rw [walkMod_idem]
termination_by structural n

theorem walkMod_idem (pv : Mat4) (l : NodeList) :
    walkMod (Tracked.Modified pv) (walkMod (Tracked.Modified pv) l)
      = walkMod (Tracked.Modified pv) l := by
  match l with
  | .nil => simp [walkMod]
  | .cons c cs =>
      simp only [walkMod]
      rw [computeCacheNode_idem, walkMod_idem]
termination_by structural l
end

mutual
theorem cacheOkNode_compute (pv : Mat4) (t : TrackedNode) :
    cacheOkNode pv (computeCacheNode (Tracked.Modified pv) t) = true := by
  match t with
  | .Unmodified n =>
      simp only [computeCacheNode, cacheOkNode]
      exact cacheOkBody_compute pv n
  | .Modified n =>
      simp only [computeCacheNode, cacheOkNode]
      exact cacheOkBody_compute pv n
termination_by structural t

theorem cacheOkBody_compute (pv : Mat4) (n : SceneNode) :
    cacheOkBody pv (computeBody (Tracked.Modified pv) n) = true := by
  match n with
  | .mk d ca tr b1 b2 ch q =>
      simp only [computeBody, Tracked.is_unmodified, Bool.false_eq_true, if_false,
        cacheOkBody, Tracked.deref, decide_eq_true_eq, Bool.and_eq_true]
      exact ⟨by simp, cacheOkList_walkMod (matMul pv tr.deref) ch⟩
termination_by structural n

theorem cacheOkList_walkMod (pv : Mat4) (l : NodeList) :
    cacheOkList pv (walkMod (Tracked.Modified pv) l) = true := by
  match l with
  | .nil => simp [walkMod, cacheOkList]
  | .cons c cs =>
      simp only [walkMod, cacheOkList, Bool.and_eq_true]
      exact ⟨cacheOkNode_compute pv c, cacheOkList_walkMod pv cs⟩
termination_by structural l
end

mutual
theorem scrubNode_compute (p : Tracked Mat4) (t : TrackedNode) :
    scrubNode (computeCacheNode p t) = scrubNode t := by
  match t with
  | .Unmodified n =>
      simp only [computeCacheNode, scrubNode]
      exact scrubBody_compute p n
  | .Modified n =>
      simp only [computeCacheNode, scrubNode]
      exact scrubBody_compute p n
termination_by structural t

theorem scrubBody_compute (p : Tracked Mat4) (n : SceneNode) :
    scrubBody (computeBody p n) = scrubBody n := by
  match n with
  | .mk d ca tr b1 b2 ch q =>
      match p with
      | .Unmodified pv =>
          simp only [computeBody, Tracked.is_unmodified, if_true, scrubBody]
          rw [scrubChildren_walkUnmod]
      | .Modified pv =>
          simp only [computeBody, Tracked.is_unmodified, Bool.false_eq_true, if_false, scrubBody]
          rw [scrubChildren_walkMod]
termination_by structural n

theorem scrubChildren_walkUnmod (c : Tracked Mat4) (l : NodeList) :
    scrubChildren (walkUnmod c l) = scrubChildren l := by
  match l with
  | .nil => rfl
  | .cons (.Unmodified n) cs =>
      simp only [walkUnmod, scrubChildren]
      rw [scrubChildren_walkUnmod]
  | .cons (.Modified n) cs =>
      simp only [walkUnmod, scrubChildren]
      rw [scrubChildren_walkUnmod, scrubNode_compute]
termination_by structural l

theorem scrubChildren_walkMod (c : Tracked Mat4) (l : NodeList) :
    scrubChildren (walkMod c l) = scrubChildren l := by
  match l with
  | .nil => rfl
  | .cons t cs =>
      simp only [walkMod, scrubChildren]
      rw [scrubChildren_walkMod, scrubNode_compute]
termination_by structural l
end

mutual
theorem allNodesUnmod_unset (t : TrackedNode) :
    allNodesUnmod (unset_modification t) = true := by
  match t with
  | .Unmodified n =>
      simp only [unset_modification, allNodesUnmod]
      exact allNodesUnmodBody_unset n
  | .Modified n =>
      simp only [unset_modification, allNodesUnmod]
      exact allNodesUnmodBody_unset n
termination_by structural t

theorem allNodesUnmodBody_unset (n : SceneNode) :
    allNodesUnmodBody (unsetBody n) = true := by
  match n with
  | .mk d ca tr b1 b2 ch q =>
      simp only [unsetBody, allNodesUnmodBody]
      exact allNodesUnmodList_unset ch
termination_by structural n

theorem allNodesUnmodList_unset (l : NodeList) :
    allNodesUnmodList (unsetList l) = true := by
  match l with
  | .nil => rfl
  | .cons t cs =>
      simp only [unsetList, allNodesUnmodList, Bool.and_eq_true]
      exact ⟨allNodesUnmod_unset t, allNodesUnmodList_unset cs⟩
termination_by structural l
end

mutual
theorem stripNode_unset (t : TrackedNode) :
    stripNode (unset_modification t) = stripNode t := by
  match t with
  | .Unmodified n =>
      simp only [unset_modification, stripNode]
      exact stripBody_unset n
  | .Modified n =>
      simp only [unset_modification, stripNode]
      exact stripBody_unset n
termination_by structural t

theorem stripBody_unset (n : SceneNode) :
    stripBody (unsetBody n) = stripBody n := by
  match n with
  | .mk d ca tr b1 b2 ch q =>
      simp only [unsetBody, stripBody]
      rw [stripList_unset]
termination_by structural n

theorem stripList_unset (l : NodeList) :
    stripList (unsetList l) = stripList l := by
  match l with
  | .nil => rfl
  | .cons t cs =>
      simp only [unsetList, stripList]
      rw [stripNode_unset, stripList_unset]
termination_by structural l
end

mutual
theorem dfOkList_assign (p c : Nat) (l : NodeList) :
    dfOkList p c (assignList p c l) = true := by
  match l with
  | .nil => rfl
  | .cons t cs =>
      simp only [assignList, dfOkList, Bool.and_eq_true]
      exact ⟨dfOkNode_assign (p + c) t, dfOkList_assign p (c + 1) cs⟩
termination_by structural l

theorem dfOkNode_assign (cur : Nat) (t : TrackedNode) :
    dfOkNode cur (assignNode cur t) = true := by
  match t with
  | .Unmodified n =>
      simp only [assignNode, dfOkNode]
      exact dfOkBody_assign cur n
  | .Modified n =>
      simp only [assignNode, dfOkNode]
      exact dfOkBody_assign cur n
termination_by structural t

theorem dfOkBody_assign (cur : Nat) (n : SceneNode) :
    dfOkBody cur (assignBody cur n) = true := by
  match n with
  | .mk d ca tr b1 b2 ch q =>
      simp only [assignBody, dfOkBody, Tracked.deref, decide_eq_true_eq, Bool.and_eq_true]
      exact ⟨trivial, dfOkList_assign cur 0 ch⟩
termination_by structural n
end

theorem NodeList.getLast?_append_single (l : NodeList) (x : TrackedNode) :
    (l.append (NodeList.cons x NodeList.nil)).getLast? = some x := by
  match l with
  | .nil => rfl
  | .cons hd .nil =>
      simp [NodeList.append, NodeList.getLast?]
  | .cons hd (.cons h2 t2) =>
      have ih := NodeList.getLast?_append_single (NodeList.cons h2 t2) x
      simpa [NodeList.append, NodeList.getLast?] using ih
termination_by structural l

theorem NodeList.length_append (l m : NodeList) :
    (l.append m).length = l.length + m.length := by
  match l with
  | .nil => simp [NodeList.append, NodeList.length]
  | .cons hd tl =>
      have ih := NodeList.length_append tl m
      simp [NodeList.append, NodeList.length, ih]
      omega
termination_by structural l

/-- C2: the claim states that `SceneTree::new(root_node)` wraps the node in
a `Tracked` whose state is Modified.  The code calls `Tracked::new`, which
constructs Unmodified, so a freshly built tree reports an unmodified root
for every input node and the first `recompute_caches()` pass is skipped. -/
theorem C2_fresh_tree_root_unmodified (node : SceneNode) :
    (SceneTree.new node).root.is_modified = false := by
  match node with
  | .mk d ca tr b1 b2 ch q =>
      rfl

/-- C4: if the root node wrapper is Unmodified, `recompute_caches()` is a
complete no-op: the resulting tree — every wrapper state and every stored
value — is exactly the input tree. -/
theorem C4_noop_when_root_unmodified (t : SceneTree) (h : t.root.is_modified = false) :
    t.recompute_caches = t := by
  simp [SceneTree.recompute_caches, h]

/-- C4 witness: the fresh example tree has an Unmodified root and is left
untouched by `recompute_caches()`. -/
theorem C4_witness :
    freshTree.root.is_modified = false ∧ freshTree.recompute_caches = freshTree :=
  ⟨by decide, C4_noop_when_root_unmodified freshTree (by decide)⟩

/-- C5: `recompute_caches()` is idempotent — a second consecutive call with
no intervening mutation rebuilds exactly the same tree (in particular all
cache values are identical), and below an Unmodified root a call performs
no work at all. -/
theorem C5_recompute_idempotent (t : SceneTree) :
    t.recompute_caches.recompute_caches = t.recompute_caches ∧
      (t.root.is_unmodified = true → t.recompute_caches = t) := by
  constructor
  · match t with
    | ⟨.Unmodified n⟩ =>
        simp [SceneTree.recompute_caches, TrackedNode.is_modified]
    | ⟨.Modified n⟩ =>
        match n with
        | .mk d ca tr b1 b2 ch q =>
            simp only [SceneTree.recompute_caches, TrackedNode.is_modified, if_true,
              TrackedNode.deref, compute_cache, Tracked.is_unmodified, Bool.false_eq_true,
              if_false, Tracked.deref]
            rw [walkMod_idem]
  · intro h
    match t with
    | ⟨.Unmodified n⟩ => simp [SceneTree.recompute_caches, TrackedNode.is_modified]
    | ⟨.Modified n⟩ => simp [TrackedNode.is_unmodified] at h

/-- C5 witness: on the example tree two consecutive recomputes agree, and
on the fresh (Unmodified-root) tree the pass does nothing. -/
theorem C5_witness :
    exTree.recompute_caches.recompute_caches = exTree.recompute_caches ∧
      freshTree.recompute_caches = freshTree :=
  ⟨(C5_recompute_idempotent exTree).1,
   (C5_recompute_idempotent freshTree).2 (by decide)⟩

/-- C8: the `Tracked` wrapper is a two-state machine: `new` starts
Unmodified; `deref_mut` (write access) sends Unmodified to Modified and
keeps Modified at Modified, so the result of any write access is Modified;
the two predicates are complementary (pure reads — they return a Bool and
leave the wrapper untouched in the functional embedding); `reset` always
ends Unmodified and reports `true` exactly when the state was Modified
beforehand, and it is the only operation sending Modified to Unmodified. -/
theorem C8_tracked_state_machine {α : Type} (x : α) (t : Tracked α) :
    (Tracked.new x).is_unmodified = true ∧
    (Tracked.Unmodified x).deref_mut = Tracked.Modified x ∧
    (Tracked.Modified x).deref_mut = Tracked.Modified x ∧
    t.deref_mut.is_modified = true ∧
    t.is_unmodified = !t.is_modified ∧
    (t.reset).1 = t.is_modified ∧
    (t.reset).2.is_unmodified = true := by
  cases t <;>
    simp [Tracked.new, Tracked.is_unmodified, Tracked.is_modified, Tracked.deref_mut,
      Tracked.reset]

/-- C9: `reset` and the `deref_mut` state transition never change the
wrapped value: both `into_inner` and read access afterwards return exactly
the value held before. -/
theorem C9_operations_preserve_value {α : Type} (t : Tracked α) :
    t.deref_mut.into_inner = t.into_inner ∧
    (t.reset).2.into_inner = t.into_inner ∧
    t.deref_mut.deref = t.deref ∧
    (t.reset).2.deref = t.deref := by
  cases t <;>
    simp [Tracked.deref_mut, Tracked.into_inner, Tracked.deref, Tracked.reset]

/-- C10: `recompute_caches()` changes only cache wrappers (value and state)
and node-wrapper dirty flags: under `scrubNode`, which erases exactly those,
the tree is unchanged — so every local transform value and state, every
positional index, every quad list, both count-changed flags, and the order
and membership of every children list are preserved. -/
theorem C10_recompute_frame (t : SceneTree) :
    scrubNode (t.recompute_caches).root = scrubNode t.root := by
  match t with
  | ⟨.Unmodified n⟩ =>
      simp [SceneTree.recompute_caches, TrackedNode.is_modified]
  | ⟨.Modified n⟩ =>
      match n with
      | .mk d ca tr b1 b2 ch q =>
          simp only [SceneTree.recompute_caches, TrackedNode.is_modified, if_true,
            TrackedNode.deref, compute_cache, Tracked.is_unmodified, Bool.false_eq_true,
            if_false, scrubNode, scrubBody]
          rw [scrubChildren_walkMod]

/-- C1 (amended): for a tree whose root wrapper is Modified — the state
every mutation through the public API leaves behind — `recompute_caches()`
establishes the world-transform invariant everywhere: `cacheOkNode`
asserts, recursively from an identity parent, that each node's cache value
equals its parent's cache value times its local transform; and the root's
cache value equals its local transform. -/
theorem C1_world_transform_invariant (t : SceneTree) (h : t.root.is_modified = true) :
    cacheOkNode Mat4.identity (t.recompute_caches).root = true ∧
      (t.recompute_caches).root.deref.cache.deref
        = (t.recompute_caches).root.deref.transform.deref := by
  match t with
  | ⟨.Unmodified n⟩ => simp [TrackedNode.is_modified] at h
  | ⟨.Modified n⟩ =>
      match n with
      | .mk d ca tr b1 b2 ch q =>
          simp only [SceneTree.recompute_caches, TrackedNode.is_modified, if_true,
            TrackedNode.deref, compute_cache, Tracked.is_unmodified, Bool.false_eq_true,
            if_false]
          constructor
          · simp only [cacheOkNode, cacheOkBody, Tracked.deref, decide_eq_true_eq,
              Bool.and_eq_true]
            exact ⟨trivial, cacheOkList_walkMod _ ch⟩
          · simp [SceneNode.cache, SceneNode.transform, Tracked.deref, matMul_identity_left]

/-- C1 witness: on the repository's example tree (root I, children 2·I and
3·I, grandchildren I and 2·I) with a Modified root, the pass establishes
the invariant. -/
theorem C1_witness :
    exTree.root.is_modified = true ∧
      cacheOkNode Mat4.identity (exTree.recompute_caches).root = true ∧
      (exTree.recompute_caches).root.deref.cache.deref
        = (exTree.recompute_caches).root.deref.transform.deref :=
  ⟨by decide, (C1_world_transform_invariant exTree (by decide)).1,
    (C1_world_transform_invariant exTree (by decide)).2⟩

/-- C1 counterexample: the claim quantifies over every scene tree, but on
`staleTree` the root wrapper is Unmodified (`Tracked::new`), so
`recompute_caches()` does nothing and the child's cache value 3·I differs
from parent-cache · child-transform = 6·I. -/
theorem C1_counterexample :
    cacheOkNode Mat4.identity (staleTree.recompute_caches).root = false := by decide

/-- C3 (amended): `unset_modifications()` leaves every node wrapper
Unmodified, and changes nothing else: under `stripNode`, which erases
exactly the node-wrapper states, the tree is unchanged — in particular the
`transform` and `cache` wrappers are NOT reset, keeping both their values
and their Modified/Unmodified states. -/
theorem C3_unset_resets_node_wrappers (t : SceneTree) :
    allNodesUnmod (t.unset_modifications).root = true ∧
      stripNode (t.unset_modifications).root = stripNode t.root :=
  ⟨allNodesUnmod_unset t.root, stripNode_unset t.root⟩

/-- C3 counterexample: the claim states that after `unset_modifications()`
`is_modified()` is false for every cache wrapper, but the root's cache
wrapper — made Modified by the recompute pass — is still Modified after the
reset, because `unset_modification` only resets node wrappers. -/
theorem C3_counterexample :
    resetTree.root.deref.cache.is_modified = true := by decide

/-- C6 counterexample: the claim's formula says a child inserted into
`deepParent` (whose own index is 5, sibling position 0) receives index
5 + 0 = 5; the code assigns `self.children.len()` = 0 — the parent's own
index is not added for the directly inserted child. -/
theorem C6_counterexample :
    deepParent.df_index.deref = 5 ∧
      ((deepParent.add_child sampleChild).children.getLast?).map
          (fun m => m.deref.df_index.deref) = some 0 ∧
      ((deepParent.add_child sampleChild).children.getLast?).map
          (fun m => m.deref.df_index.deref) ≠ some (deepParent.df_index.deref + 0) :=
  ⟨by decide, by decide, by decide⟩

/-- C6 (amended): `add_child` appends the new child at the end of the
children list; the directly inserted child's `df_index` is its 0-based
position among its siblings (the parent's own index is NOT added at this
level), and the inserted child's descendants are reassigned recursively by
the formula index = (parent's index) + (0-based sibling position), each
child's index becoming the base for its own children. -/
theorem C6_add_child_indices (self node : SceneNode) :
    ∃ m : TrackedNode,
      (self.add_child node).children
          = self.children.append (NodeList.cons m NodeList.nil) ∧
      m.deref.df_index.deref = self.children.length ∧
      dfOkList m.deref.df_index.deref 0 m.deref.children = true ∧
      (self.add_child node).children.length = self.children.length + 1 := by
  match self, node with
  | .mk d ca tr b1 b2 ch q, .mk nd nca ntr nb1 nb2 nch nq =>
      refine ⟨TrackedNode.new (SceneNode.mk (Tracked.new ch.length) nca ntr nb1 nb2
        (assign_df_indices ch.length nch) nq), rfl, rfl, ?_, ?_⟩
      · simpa [TrackedNode.new, TrackedNode.deref, SceneNode.df_index, SceneNode.children,
          Tracked.new, Tracked.deref, assign_df_indices]
          using dfOkList_assign ch.length 0 nch
      · simp [SceneNode.add_child, SceneNode.children, NodeList.length_append,
          NodeList.length]

/-- C7 counterexample: the claim states the parent stores the inserted
child in a Modified wrapper; the code wraps it with `Tracked::new`, so the
wrapper is Unmodified immediately after insertion. -/
theorem C7_counterexample :
    (((SceneNode.new Mat4.identity).add_child sampleChild).children.getLast?).map
        TrackedNode.is_modified = some false := by decide

/-- C7 (amended): immediately after `add_child`, the wrapper in which the
parent stores the inserted child is Unmodified (insertion is recorded in
the parent's `child_count_changed` flag instead). -/
theorem C7_inserted_child_unmodified (self node : SceneNode) :
    ∃ m : TrackedNode,
      (self.add_child node).children
          = self.children.append (NodeList.cons m NodeList.nil) ∧
      m.is_modified = false ∧
      (self.add_child node).child_count_changed = true := by
  match self, node with
  | .mk d ca tr b1 b2 ch q, .mk nd nca ntr nb1 nb2 nch nq =>
      exact ⟨_, rfl, rfl, rfl⟩
